import Mathlib

/-
Verification of the invoice form-action module (`src/app/lib/actions.ts`,
complete revision: the file also carries an earlier draft of `createInvoice`
without the try/catch, superseded by the full revision that defines all three
handlers).  The module validates form input with a zod schema, issues one SQL
statement per request against the `invoices` table, revalidates the listing
path, and redirects.  We embed the handlers as pure functions over an explicit
database (a list of rows) and an explicit event trace, with the store's
possible persistence failure modelled by a boolean flag.
-/

namespace Invoices

/-- Invoice status: the zod schema is `z.enum(["pending", "paid"])`. -/
inductive Status where
  | pending
  | paid
deriving DecidableEq, Repr

/-- A row of the `invoices` table: `invoices(id, customer_id, amount, status,
date)`.  The handlers compute `amountInCents = amount * 100` with exact
arithmetic and pass it to the store unchanged, so `amount` is a rational. -/
structure Invoice where
  id : String
  customer_id : String
  amount : ℚ
  status : Status
  date : String
deriving DecidableEq, Repr

instance : Inhabited Invoice :=
  ⟨{ id := "", customer_id := "", amount := 0, status := Status.pending, date := "" }⟩

/-- Form data as a mapping from field name to raw value; `none` models a field
absent from the form (`FormData.get` returns `null`). -/
def FormDataM : Type := String → Option String

/-- Field name read by the handlers: "customerId". -/
def customerIdKey : String := "customerId"

/-- Field name read by the handlers: "amount". -/
def amountKey : String := "amount"

/-- Field name read by the handlers: "status". -/
def statusKey : String := "status"

/-- The listing path passed to both `revalidatePath` and `redirect`. -/
def invoicesPath : String := "/dashboard/invoices"

/-- Numeric value of a digit string, most significant first. -/
def natOfDigits (l : List Char) : Nat :=
  l.foldl (fun a c => 10 * a + (c.toNat - 48)) 0

/-- Exact value of the decimal numeral `ip "." fp`. -/
def decValue (ip fp : List Char) : ℚ :=
  (natOfDigits ip : ℚ) + (natOfDigits fp : ℚ) / (10 : ℚ) ^ fp.length

/-- Parse an unsigned decimal numeral: digits, optionally followed by a point
and further digits, with at least one digit in total (JavaScript accepts
"12.", ".5" and rejects "."). -/
def parseUnsigned (l : List Char) : Option ℚ :=
  let ip := l.takeWhile Char.isDigit
  match l.dropWhile Char.isDigit with
  | [] => if ip.isEmpty then none else some (natOfDigits ip : ℚ)
  | c :: fp =>
    if c = '.' ∧ fp.all Char.isDigit ∧ (ip ≠ [] ∨ fp ≠ []) then
      some (decValue ip fp)
    else none

/-- Strip leading and trailing whitespace, as `Number()` does before reading
the numeral. -/
def jsTrim (l : List Char) : List Char :=
  ((l.dropWhile Char.isWhitespace).reverse.dropWhile Char.isWhitespace).reverse

/-- JavaScript `Number()` applied to a form value, as invoked by
`z.coerce.number()`: `Number(null) = 0`, the empty or all-whitespace string is
`0`, a (possibly signed) decimal numeral has its exact value, and anything
else is NaN, modelled as `none` (zod's number type rejects NaN).  Hexadecimal,
exponent and Infinity forms are not modelled; no claim involves them. -/
def jsNumber : Option String → Option ℚ
  | none => some 0
  | some s =>
    match jsTrim s.data with
    | [] => some 0
    | '-' :: rest => (parseUnsigned rest).map (fun q => -q)
    | '+' :: rest => parseUnsigned rest
    | l => parseUnsigned l

/-- The `z.enum(["pending", "paid"])` check: exactly these two literals are
accepted; `null` (absent field) and every other string fail. -/
def parseStatus (v : Option String) : Option Status :=
  match v with
  | none => none
  | some s =>
    if s = "pending" then some Status.pending
    else if s = "paid" then some Status.paid
    else none

/-- The validated record produced by `CreateInvoice.parse` /
`UpdateInvoice.parse` (both are `FormSchema.omit` of `id` and `date`). -/
structure ParsedForm where
  customerId : String
  amount : ℚ
  status : Status
deriving DecidableEq, Repr

/-- `CreateInvoice.parse` and `UpdateInvoice.parse`: `customerId` must satisfy
`z.string()` (present, i.e. not `null`; the empty string is a string and
passes), `amount` is coerced by `Number()` and must not be NaN, `status` must
be one of the two enum literals.  `none` models the thrown ZodError. -/
def parseForm (fd : FormDataM) : Option ParsedForm :=
  match fd customerIdKey, jsNumber (fd amountKey), parseStatus (fd statusKey) with
  | some cid, some a, some st =>
    some { customerId := cid, amount := a, status := st }
  | _, _, _ => none

/-- Observable side effect of a handler, recorded in program order. -/
inductive Event where
  | sqlInsert (row : Invoice)
  | sqlUpdate (id customerId : String) (amountInCents : ℚ) (status : Status)
  | sqlDelete (id : String)
  | consoleError
  | revalidate (path : String)
deriving DecidableEq, Repr

/-- How control leaves a handler. -/
inductive HandlerExit where
  | validationError
  | storeError
  | redirectTo (path : String)
  | normalReturn
deriving DecidableEq, Repr

/-- Result of running one handler: the database afterwards, the effects in
order, and how control left.  `redirect()` is a control transfer, recorded in
`exit`; every recorded event happens before it. -/
structure Outcome where
  db : List Invoice
  events : List Event
  exit : HandlerExit
deriving DecidableEq, Repr

/-- The store generates the new row's id on insert; the handlers never inspect
it, so any choice fresh enough for the claims serves. -/
def freshId (db : List Invoice) : String :=
  toString db.length

/-- `createInvoice`: parse the three form fields (a ZodError escapes on
failure), compute `amountInCents = amount * 100` and `date` (the parameter
`today` stands for `new Date().toISOString().split("T")[0]`, the current UTC
date as YYYY-MM-DD), run the INSERT inside try/catch — a store failure
(`storeFails`) is logged by `console.error` and swallowed — then
`revalidatePath` and `redirect` unconditionally. -/
def createInvoice (storeFails : Bool) (today : String) (fd : FormDataM)
    (db : List Invoice) : Outcome :=
  match parseForm fd with
  | none => { db := db, events := [], exit := HandlerExit.validationError }
  | some p =>
    let row : Invoice :=
      { id := freshId db, customer_id := p.customerId,
        amount := p.amount * 100, status := p.status, date := today }
    if storeFails then
      { db := db
        events := [Event.consoleError, Event.revalidate invoicesPath]
        exit := HandlerExit.redirectTo invoicesPath }
    else
      { db := db ++ [row]
        events := [Event.sqlInsert row, Event.revalidate invoicesPath]
        exit := HandlerExit.redirectTo invoicesPath }

/-- Effect of the UPDATE statement: every row whose `id` matches has
`customer_id`, `amount` and `status` set; all other columns and rows are
untouched.  A missing id matches no row and changes nothing. -/
def applyUpdate (id : String) (p : ParsedForm) (db : List Invoice) :
    List Invoice :=
  db.map (fun r =>
    if r.id = id then
      { r with customer_id := p.customerId, amount := p.amount * 100,
               status := p.status }
    else r)

/-- `updateInvoice`: same validation as create, `amountInCents = amount * 100`,
UPDATE inside try/catch (store failure logged and swallowed), then
`revalidatePath` and `redirect` unconditionally.  `date` is not in the SET
list. -/
def updateInvoice (storeFails : Bool) (id : String) (fd : FormDataM)
    (db : List Invoice) : Outcome :=
  match parseForm fd with
  | none => { db := db, events := [], exit := HandlerExit.validationError }
  | some p =>
    if storeFails then
      { db := db
        events := [Event.consoleError, Event.revalidate invoicesPath]
        exit := HandlerExit.redirectTo invoicesPath }
    else
      { db := applyUpdate id p db
        events := [Event.sqlUpdate id p.customerId (p.amount * 100) p.status,
                   Event.revalidate invoicesPath]
        exit := HandlerExit.redirectTo invoicesPath }

/-- `deleteInvoice`: one DELETE with no try/catch — a store failure propagates
out of the handler before `revalidatePath` runs — then `revalidatePath` only;
there is no `redirect` call. -/
def deleteInvoice (storeFails : Bool) (id : String) (db : List Invoice) :
    Outcome :=
  if storeFails then
    { db := db, events := [], exit := HandlerExit.storeError }
  else
    { db := db.filter (fun r => r.id != id)
      events := [Event.sqlDelete id, Event.revalidate invoicesPath]
      exit := HandlerExit.normalReturn }

/-- A form holding exactly the three fields the handlers read. -/
def mkForm (cid amt st : Option String) : FormDataM :=
  fun k =>
    if k = customerIdKey then cid
    else if k = amountKey then amt
    else if k = statusKey then st
    else none

/-- Overwrite one field of a form. -/
def setField (fd : FormDataM) (k : String) (v : Option String) : FormDataM :=
  fun q => if q = k then v else fd q

/-- Concrete string used in tests: a customer id. -/
def strC1 : String := "c1"

/-- Concrete string used in tests: a second customer id. -/
def strC2 : String := "c2"

/-- Concrete string: the enum literal accepted by the schema. -/
def strPending : String := "pending"

/-- Concrete string: the other enum literal accepted by the schema. -/
def strPaid : String := "paid"

/-- Concrete string: a literal outside the status enum. -/
def strOverdue : String := "overdue"

/-- Concrete amount input in whole major units. -/
def str50 : String := "50"

/-- Concrete amount input with two decimal places. -/
def str12_50 : String := "12.50"

/-- Concrete amount input with one decimal place. -/
def str10_5 : String := "10.5"

/-- Concrete amount input with three decimal places. -/
def str0_125 : String := "0.125"

/-- The empty string. -/
def strEmpty : String := ""

/-- A concrete calendar date standing for the clock value in closed tests. -/
def strToday : String := "2026-10-11"

/-- A concrete invoice id. -/
def strInv1 : String := "inv1"

/-- Reading the customerId field of `mkForm`. -/
theorem mkForm_customerId (c a s : Option String) :
    mkForm c a s customerIdKey = c := rfl

/-- Reading the amount field of `mkForm`. -/
theorem mkForm_amount (c a s : Option String) :
    mkForm c a s amountKey = a := rfl

/-- Reading the status field of `mkForm`. -/
theorem mkForm_status (c a s : Option String) :
    mkForm c a s statusKey = s := rfl

/-- Evaluation: coercing "50". -/
theorem jsNumber_50 : jsNumber (some str50) = some 50 := by
  have h : jsNumber (some str50) = some ((natOfDigits ['5', '0'] : ℚ)) := rfl
  have hn : natOfDigits ['5', '0'] = 50 := by decide
  rw [h, hn]
  norm_num

/-- Evaluation: coercing "12.50". -/
theorem jsNumber_12_50 : jsNumber (some str12_50) = some (25 / 2) := by
  have h : jsNumber (some str12_50)
      = some (decValue ['1', '2'] ['5', '0']) := rfl
  have h1 : natOfDigits ['1', '2'] = 12 := by decide
  have h2 : natOfDigits ['5', '0'] = 50 := by decide
  rw [h]
  unfold decValue
  rw [h1, h2]
  norm_num

/-- Evaluation: coercing "10.5". -/
theorem jsNumber_10_5 : jsNumber (some str10_5) = some (21 / 2) := by
  have h : jsNumber (some str10_5) = some (decValue ['1', '0'] ['5']) := rfl
  have h1 : natOfDigits ['1', '0'] = 10 := by decide
  have h2 : natOfDigits ['5'] = 5 := by decide
  rw [h]
  unfold decValue
  rw [h1, h2]
  norm_num

/-- Evaluation: coercing "0.125". -/
theorem jsNumber_0_125 : jsNumber (some str0_125) = some (1 / 8) := by
  have h : jsNumber (some str0_125)
      = some (decValue ['0'] ['1', '2', '5']) := rfl
  have h1 : natOfDigits ['0'] = 0 := by decide
  have h2 : natOfDigits ['1', '2', '5'] = 125 := by decide
  rw [h]
  unfold decValue
  rw [h1, h2]
  norm_num

/-- Evaluation: coercing the empty string and the absent field both give 0. -/
theorem jsNumber_empty :
    jsNumber (some strEmpty) = some 0 ∧ jsNumber none = some 0 :=
  ⟨rfl, rfl⟩

/-- Parsing a three-field form reduces to the three field checks. -/
theorem parseForm_mkForm (cid amt st : String) (a : ℚ) (s : Status)
    (ha : jsNumber (some amt) = some a)
    (hs : parseStatus (some st) = some s) :
    parseForm (mkForm (some cid) (some amt) (some st))
      = some { customerId := cid, amount := a, status := s } := by
  unfold parseForm
  rw [mkForm_customerId, mkForm_amount, mkForm_status, ha, hs]

/-- When the status field fails the enum check, the whole parse fails. -/
theorem parseForm_none_of_status (fd : FormDataM)
    (hstat : parseStatus (fd statusKey) = none) : parseForm fd = none := by
  unfold parseForm
  rw [hstat]
  cases fd customerIdKey <;> cases jsNumber (fd amountKey) <;> rfl

/-- C3: the `z.enum(["pending", "paid"])` check accepts exactly the two
literals "pending" and "paid"; for a form whose status field holds any other
value, `.parse` throws before the SQL statement, so both `createInvoice` and
`updateInvoice` leave the table untouched, record no event (in particular no
store call), and exit with the validation error. -/
theorem status_enum_exact (flag : Bool) (today sid : String) (fd : FormDataM)
    (db : List Invoice)
    (h : ∀ s, fd statusKey = some s → s ≠ "pending" ∧ s ≠ "paid") :
    (∀ s : String,
        (parseStatus (some s)).isSome = true ↔ (s = "pending" ∨ s = "paid"))
    ∧ parseForm fd = none
    ∧ (createInvoice flag today fd db).db = db
    ∧ (createInvoice flag today fd db).events = []
    ∧ (createInvoice flag today fd db).exit = HandlerExit.validationError
    ∧ (updateInvoice flag sid fd db).db = db
    ∧ (updateInvoice flag sid fd db).events = []
    ∧ (updateInvoice flag sid fd db).exit = HandlerExit.validationError := by
  have hstat : parseStatus (fd statusKey) = none := by
    cases hv : fd statusKey with
    | none => rfl
    | some s =>
      obtain ⟨h1, h2⟩ := h s hv
      simp [parseStatus, h1, h2]
  have hparse : parseForm fd = none := parseForm_none_of_status fd hstat
  refine ⟨?_, hparse, ?_, ?_, ?_, ?_, ?_, ?_⟩
  · intro s
    by_cases hp : s = "pending" <;> by_cases hq : s = "paid" <;>
      simp [parseStatus, hp, hq]
  all_goals simp [createInvoice, updateInvoice, hparse]

/-- Witness for C3 at the concrete rejected literal "overdue". -/
theorem status_enum_exact_witness :
    parseForm (mkForm (some strC1) (some str50) (some strOverdue)) = none
    ∧ (createInvoice false strToday
          (mkForm (some strC1) (some str50) (some strOverdue)) []).events = []
    ∧ (createInvoice false strToday
          (mkForm (some strC1) (some str50) (some strOverdue)) []).exit
        = HandlerExit.validationError := by
  have h := status_enum_exact false strToday strInv1
      (mkForm (some strC1) (some str50) (some strOverdue)) []
      (by
        intro s hs
        rw [mkForm_status] at hs
        obtain rfl : strOverdue = s := by injection hs
        constructor <;> decide)
  exact ⟨h.2.1, h.2.2.2.1, h.2.2.2.2.1⟩

/-- C2: when the store raises a persistence failure, `createInvoice` and
`updateInvoice` log it via `console.error`, let no exception escape (control
still leaves through the redirect), and still revalidate the listing path;
`deleteInvoice` has no try/catch, so the failure propagates out uncaught and
the revalidation never runs. -/
theorem store_failure_policy (today sid : String) (fd : FormDataM)
    (db : List Invoice) (p : ParsedForm) (hp : parseForm fd = some p) :
    (createInvoice true today fd db).events
        = [Event.consoleError, Event.revalidate invoicesPath]
    ∧ (createInvoice true today fd db).exit
        = HandlerExit.redirectTo invoicesPath
    ∧ (updateInvoice true sid fd db).events
        = [Event.consoleError, Event.revalidate invoicesPath]
    ∧ (updateInvoice true sid fd db).exit
        = HandlerExit.redirectTo invoicesPath
    ∧ (deleteInvoice true sid db).exit = HandlerExit.storeError
    ∧ Event.revalidate invoicesPath ∉ (deleteInvoice true sid db).events := by
  simp [createInvoice, updateInvoice, deleteInvoice, hp]

/-- Witness for C2 at a concrete valid form. -/
theorem store_failure_policy_witness :
    (createInvoice true strToday
        (mkForm (some strC1) (some str50) (some strPending)) []).events
        = [Event.consoleError, Event.revalidate invoicesPath]
    ∧ (createInvoice true strToday
        (mkForm (some strC1) (some str50) (some strPending)) []).exit
        = HandlerExit.redirectTo invoicesPath
    ∧ (updateInvoice true strInv1
        (mkForm (some strC1) (some str50) (some strPending)) []).events
        = [Event.consoleError, Event.revalidate invoicesPath]
    ∧ (updateInvoice true strInv1
        (mkForm (some strC1) (some str50) (some strPending)) []).exit
        = HandlerExit.redirectTo invoicesPath
    ∧ (deleteInvoice true strInv1 []).exit = HandlerExit.storeError
    ∧ Event.revalidate invoicesPath ∉ (deleteInvoice true strInv1 []).events :=
  store_failure_policy strToday strInv1
    (mkForm (some strC1) (some str50) (some strPending)) []
    { customerId := strC1, amount := 50, status := Status.pending }
    (parseForm_mkForm strC1 str50 strPending 50 Status.pending jsNumber_50 rfl)

/-- C4: a valid create with customerId "c1", amount "50" and status "pending"
inserts a row with customer_id "c1", 5000 cents, status pending and the
current date, then revalidates the listing path, then redirects to it — the
full outcome in program order. -/
theorem create_success_concrete (today : String) (db : List Invoice) :
    createInvoice false today (mkForm (some strC1) (some str50) (some strPending)) db
      = { db := db ++ [{ id := freshId db, customer_id := strC1, amount := 5000,
                         status := Status.pending, date := today }]
          events := [Event.sqlInsert
                        { id := freshId db, customer_id := strC1, amount := 5000,
                          status := Status.pending, date := today },
                     Event.revalidate invoicesPath]
          exit := HandlerExit.redirectTo invoicesPath } := by
  have hp := parseForm_mkForm strC1 str50 strPending 50 Status.pending jsNumber_50 rfl
  simp [createInvoice, hp]
  norm_num

/-- Witness for C4 at a concrete clock value and the empty store. -/
theorem create_success_concrete_witness :
    createInvoice false strToday
        (mkForm (some strC1) (some str50) (some strPending)) []
      = { db := [{ id := freshId [], customer_id := strC1, amount := 5000,
                   status := Status.pending, date := strToday }]
          events := [Event.sqlInsert
                        { id := freshId [], customer_id := strC1, amount := 5000,
                          status := Status.pending, date := strToday },
                     Event.revalidate invoicesPath]
          exit := HandlerExit.redirectTo invoicesPath } := by
  have h := create_success_concrete strToday []
  simpa using h

/-- A concrete stored row used in closed tests. -/
def rowInv1 : Invoice :=
  { id := strInv1, customer_id := strC1, amount := 5000,
    status := Status.pending, date := strToday }

/-- A second concrete stored row with a different id. -/
def rowInv2 : Invoice :=
  { id := "inv2", customer_id := strC2, amount := 100,
    status := Status.paid, date := strToday }

/-- Row-by-row effect of the UPDATE statement: each row keeps its `id` and its
`date`; a row matching the WHERE clause gets exactly the three SET columns,
any other row is returned verbatim. -/
theorem applyUpdate_zip (sid : String) (p : ParsedForm) (db : List Invoice) :
    ∀ pr ∈ db.zip (applyUpdate sid p db),
      pr.2.id = pr.1.id ∧ pr.2.date = pr.1.date
      ∧ (pr.1.id = sid →
          pr.2 = { id := pr.1.id, customer_id := p.customerId,
                   amount := p.amount * 100, status := p.status,
                   date := pr.1.date })
      ∧ (pr.1.id ≠ sid → pr.2 = pr.1) := by
  induction db with
  | nil =>
    intro pr hpr
    simp [applyUpdate] at hpr
  | cons r rest ih =>
    intro pr hpr
    simp only [applyUpdate, List.map_cons, List.zip_cons_cons,
      List.mem_cons] at hpr
    rcases hpr with rfl | h
    · by_cases hid : r.id = sid <;> simp [hid]
    · exact ih pr (by simpa [applyUpdate] using h)

/-- The UPDATE statement keeps the number of rows. -/
theorem applyUpdate_length (sid : String) (p : ParsedForm)
    (db : List Invoice) : (applyUpdate sid p db).length = db.length := by
  simp [applyUpdate]

/-- When no row carries the given id, the UPDATE statement is an identity. -/
theorem applyUpdate_no_match (sid : String) (p : ParsedForm) :
    ∀ db : List Invoice, (∀ r ∈ db, r.id ≠ sid) →
      applyUpdate sid p db = db := by
  intro db
  induction db with
  | nil => intro _; rfl
  | cons r rest ih =>
    intro hm
    have hr : r.id ≠ sid := hm r (List.mem_cons_self r rest)
    have hrest := ih (fun x hx => hm x (List.mem_cons_of_mem r hx))
    simp only [applyUpdate, List.map_cons, if_neg hr] at hrest ⊢
    rw [hrest]

/-- C5: `updateInvoice` touches only the three SET columns of rows matching
the given id — every row keeps its `id` and its `date`, non-matching rows are
unchanged — and never adds or removes rows. -/
theorem update_frame (sid : String) (fd : FormDataM) (db : List Invoice)
    (p : ParsedForm) (hp : parseForm fd = some p) :
    ((updateInvoice false sid fd db).db).length = db.length
    ∧ ∀ pr ∈ db.zip (updateInvoice false sid fd db).db,
        pr.2.id = pr.1.id ∧ pr.2.date = pr.1.date
        ∧ (pr.1.id = sid → pr.2.customer_id = p.customerId
            ∧ pr.2.amount = p.amount * 100 ∧ pr.2.status = p.status)
        ∧ (pr.1.id ≠ sid → pr.2 = pr.1) := by
  have hdb : (updateInvoice false sid fd db).db = applyUpdate sid p db := by
    simp [updateInvoice, hp]
  rw [hdb]
  refine ⟨applyUpdate_length sid p db, ?_⟩
  intro pr hpr
  obtain ⟨h1, h2, h3, h4⟩ := applyUpdate_zip sid p db pr hpr
  exact ⟨h1, h2, fun hid => by rw [h3 hid]; exact ⟨rfl, rfl, rfl⟩, h4⟩

/-- Witness for C5: updating "inv1" with customer "c2", amount "10.5", status
"paid" in a one-row store. -/
theorem update_frame_witness :
    parseForm (mkForm (some strC2) (some str10_5) (some strPaid))
      = some { customerId := strC2, amount := 21 / 2, status := Status.paid }
    ∧ (((updateInvoice false strInv1
          (mkForm (some strC2) (some str10_5) (some strPaid)) [rowInv1]).db).length
        = [rowInv1].length
      ∧ ∀ pr ∈ [rowInv1].zip (updateInvoice false strInv1
            (mkForm (some strC2) (some str10_5) (some strPaid)) [rowInv1]).db,
          pr.2.id = pr.1.id ∧ pr.2.date = pr.1.date
          ∧ (pr.1.id = strInv1 → pr.2.customer_id = strC2
              ∧ pr.2.amount = (21 / 2 : ℚ) * 100 ∧ pr.2.status = Status.paid)
          ∧ (pr.1.id ≠ strInv1 → pr.2 = pr.1)) :=
  ⟨parseForm_mkForm strC2 str10_5 strPaid (21 / 2) Status.paid jsNumber_10_5 rfl,
   update_frame strInv1 (mkForm (some strC2) (some str10_5) (some strPaid))
     [rowInv1] { customerId := strC2, amount := 21 / 2, status := Status.paid }
     (parseForm_mkForm strC2 str10_5 strPaid (21 / 2) Status.paid jsNumber_10_5 rfl)⟩

/-- C6: `deleteInvoice` removes exactly the rows matching the given id (a
no-op when none matches, without raising), records the DELETE and then the
revalidation, returns normally and never redirects. -/
theorem delete_spec (sid : String) (db : List Invoice) :
    (∀ r ∈ (deleteInvoice false sid db).db, r ∈ db ∧ r.id ≠ sid)
    ∧ (∀ r ∈ db, r.id ≠ sid → r ∈ (deleteInvoice false sid db).db)
    ∧ (deleteInvoice false sid db).events
        = [Event.sqlDelete sid, Event.revalidate invoicesPath]
    ∧ (deleteInvoice false sid db).exit = HandlerExit.normalReturn
    ∧ (∀ pth, (deleteInvoice false sid db).exit ≠ HandlerExit.redirectTo pth)
    ∧ ((∀ r ∈ db, r.id ≠ sid) → (deleteInvoice false sid db).db = db) := by
  refine ⟨?_, ?_, rfl, rfl, ?_, ?_⟩
  · intro r hr
    have hr2 : r ∈ db.filter (fun x => x.id != sid) := hr
    rw [List.mem_filter] at hr2
    exact ⟨hr2.1, by simpa using hr2.2⟩
  · intro r hr hne
    show r ∈ db.filter (fun x => x.id != sid)
    rw [List.mem_filter]
    exact ⟨hr, by simpa using hne⟩
  · intro pth hcontra
    have h2 : HandlerExit.normalReturn = HandlerExit.redirectTo pth := hcontra
    exact HandlerExit.noConfusion h2
  · intro hall
    show db.filter (fun x => x.id != sid) = db
    apply List.filter_eq_self.mpr
    intro r hr
    simpa using hall r hr

/-- Witness for C6: deleting "inv1" from a two-row store keeps exactly the
other row, and deleting an id absent from a store leaves it unchanged. -/
theorem delete_spec_witness :
    (∀ r ∈ (deleteInvoice false strInv1 [rowInv1, rowInv2]).db,
        r ∈ [rowInv1, rowInv2] ∧ r.id ≠ strInv1)
    ∧ (∀ r ∈ [rowInv1, rowInv2], r.id ≠ strInv1 →
        r ∈ (deleteInvoice false strInv1 [rowInv1, rowInv2]).db)
    ∧ (deleteInvoice false strInv1 [rowInv1, rowInv2]).events
        = [Event.sqlDelete strInv1, Event.revalidate invoicesPath]
    ∧ (deleteInvoice false strInv1 [rowInv1, rowInv2]).exit
        = HandlerExit.normalReturn
    ∧ (∀ pth, (deleteInvoice false strInv1 [rowInv1, rowInv2]).exit
        ≠ HandlerExit.redirectTo pth)
    ∧ ((∀ r ∈ [rowInv1, rowInv2], r.id ≠ strInv1) →
        (deleteInvoice false strInv1 [rowInv1, rowInv2]).db
          = [rowInv1, rowInv2]) :=
  delete_spec strInv1 [rowInv1, rowInv2]

/-- C7: an update whose id matches no stored row changes zero rows, raises no
error, still revalidates the listing path and still redirects to it. -/
theorem update_missing_id (sid : String) (fd : FormDataM) (db : List Invoice)
    (p : ParsedForm) (hp : parseForm fd = some p)
    (hm : ∀ r ∈ db, r.id ≠ sid) :
    (updateInvoice false sid fd db).db = db
    ∧ (updateInvoice false sid fd db).events
        = [Event.sqlUpdate sid p.customerId (p.amount * 100) p.status,
           Event.revalidate invoicesPath]
    ∧ (updateInvoice false sid fd db).exit
        = HandlerExit.redirectTo invoicesPath := by
  have hap := applyUpdate_no_match sid p db hm
  simp [updateInvoice, hp, hap]

/-- Witness for C7: updating the absent id "inv1" in a store holding only
"inv2". -/
theorem update_missing_id_witness :
    parseForm (mkForm (some strC2) (some str10_5) (some strPaid))
      = some { customerId := strC2, amount := 21 / 2, status := Status.paid }
    ∧ (∀ r ∈ [rowInv2], r.id ≠ strInv1)
    ∧ ((updateInvoice false strInv1
          (mkForm (some strC2) (some str10_5) (some strPaid)) [rowInv2]).db
        = [rowInv2]
      ∧ (updateInvoice false strInv1
          (mkForm (some strC2) (some str10_5) (some strPaid)) [rowInv2]).events
        = [Event.sqlUpdate strInv1 strC2 ((21 / 2 : ℚ) * 100) Status.paid,
           Event.revalidate invoicesPath]
      ∧ (updateInvoice false strInv1
          (mkForm (some strC2) (some str10_5) (some strPaid)) [rowInv2]).exit
        = HandlerExit.redirectTo invoicesPath) := by
  have hm : ∀ r ∈ [rowInv2], r.id ≠ strInv1 := by
    intro r hr
    simp only [List.mem_singleton] at hr
    rw [hr]
    decide
  exact ⟨parseForm_mkForm strC2 str10_5 strPaid (21 / 2) Status.paid
      jsNumber_10_5 rfl, hm,
    update_missing_id strInv1 (mkForm (some strC2) (some str10_5) (some strPaid))
      [rowInv2] { customerId := strC2, amount := 21 / 2, status := Status.paid }
      (parseForm_mkForm strC2 str10_5 strPaid (21 / 2) Status.paid
        jsNumber_10_5 rfl) hm⟩

/-- A rational with denominator 1 is its own rounding. -/
theorem round_of_den_one (q : ℚ) (h : q.den = 1) :
    ((round q : ℤ) : ℚ) = q := by
  have hq : ((q.num : ℚ)) = q := (Rat.den_eq_one_iff q).mp h
  rw [← hq, round_intCast]

/-- C1 counterexample: "0.125" is a valid amount input (it coerces to 1/8),
yet the value handed to the store is 1/8 · 100 = 25/2 — not an integer number
of cents and different from round(0.125 · 100) = 13, because the code computes
`amount * 100` without rounding. -/
theorem amount_round_cex :
    (createInvoice false strToday
        (mkForm (some strC1) (some str0_125) (some strPending)) []).db
      = [{ id := freshId [], customer_id := strC1, amount := 25 / 2,
           status := Status.pending, date := strToday }]
    ∧ ((25 : ℚ) / 2).den ≠ 1
    ∧ (25 : ℚ) / 2 ≠ ((round ((1 / 8 : ℚ) * 100) : ℤ) : ℚ) := by
  have hp := parseForm_mkForm strC1 str0_125 strPending (1 / 8) Status.pending
    jsNumber_0_125 rfl
  have hden : ((25 : ℚ) / 2).den = 2 := by
    norm_num [Rat.den_div_eq_of_coprime]
  have hround : round ((1 / 8 : ℚ) * 100) = 13 := by
    norm_num [round_eq]
  refine ⟨?_, by rw [hden]; decide, by rw [hround]; norm_num⟩
  simp [createInvoice, hp]
  norm_num

/-- C1 (amended): the handlers persist `amount * 100` exactly, with no
rounding applied; whenever `amount * 100` is an integer — as for every input
with at most two decimal places, e.g. "12.50" ↦ 1250 — that value coincides
with round(amount · 100), but for finer inputs the unrounded non-integer value
is passed to the store (see the counterexample). -/
theorem amount_times_hundred (today sid : String) (fd : FormDataM)
    (db : List Invoice) (p : ParsedForm) (hp : parseForm fd = some p) :
    (createInvoice false today fd db).db
      = db ++ [{ id := freshId db, customer_id := p.customerId,
                 amount := p.amount * 100, status := p.status, date := today }]
    ∧ (updateInvoice false sid fd db).events
      = [Event.sqlUpdate sid p.customerId (p.amount * 100) p.status,
         Event.revalidate invoicesPath]
    ∧ ((p.amount * 100).den = 1 →
        p.amount * 100 = ((round (p.amount * 100) : ℤ) : ℚ)) := by
  refine ⟨by simp [createInvoice, hp], by simp [updateInvoice, hp], ?_⟩
  intro h
  exact (round_of_den_one _ h).symm

/-- Witness for the amended C1 at the input "12.50": 12.5 · 100 = 1250. -/
theorem amount_times_hundred_witness :
    ((25 / 2 : ℚ) * 100 = 1250)
    ∧ ((createInvoice false strToday
          (mkForm (some strC1) (some str12_50) (some strPending)) []).db
        = [] ++ [{ id := freshId [], customer_id := strC1,
                   amount := (25 / 2 : ℚ) * 100, status := Status.pending,
                   date := strToday }]
      ∧ (updateInvoice false strInv1
          (mkForm (some strC1) (some str12_50) (some strPending)) []).events
        = [Event.sqlUpdate strInv1 strC1 ((25 / 2 : ℚ) * 100) Status.pending,
           Event.revalidate invoicesPath]
      ∧ (((25 / 2 : ℚ) * 100).den = 1 →
          (25 / 2 : ℚ) * 100 = ((round ((25 / 2 : ℚ) * 100) : ℤ) : ℚ))) :=
  ⟨by norm_num,
   amount_times_hundred strToday strInv1
     (mkForm (some strC1) (some str12_50) (some strPending)) []
     { customerId := strC1, amount := 25 / 2, status := Status.pending }
     (parseForm_mkForm strC1 str12_50 strPending (25 / 2) Status.pending
       jsNumber_12_50 rfl)⟩

/-- C8 counterexample: a form whose customerId is the empty string passes
validation — `z.string()` has no non-emptiness check — and the create request
proceeds to the INSERT and the redirect instead of failing. -/
theorem empty_customer_accepted_cex :
    parseForm (mkForm (some strEmpty) (some str50) (some strPending))
      = some { customerId := strEmpty, amount := 50, status := Status.pending }
    ∧ (createInvoice false strToday
        (mkForm (some strEmpty) (some str50) (some strPending)) []).events
      = [Event.sqlInsert { id := freshId [], customer_id := strEmpty,
                           amount := 5000, status := Status.pending,
                           date := strToday },
         Event.revalidate invoicesPath]
    ∧ (createInvoice false strToday
        (mkForm (some strEmpty) (some str50) (some strPending)) []).exit
      = HandlerExit.redirectTo invoicesPath := by
  have hp := parseForm_mkForm strEmpty str50 strPending 50 Status.pending
    jsNumber_50 rfl
  refine ⟨hp, ?_, ?_⟩ <;> norm_num [createInvoice, hp]

/-- C8 (amended): validation rejects an absent customerId field (FormData.get
returns null, which `z.string()` refuses), and then neither handler issues a
store call; the empty string, however, is a string and is accepted (see the
counterexample). -/
theorem customer_requires_presence (flag : Bool) (today sid : String)
    (fd : FormDataM) (db : List Invoice) (h : fd customerIdKey = none) :
    parseForm fd = none
    ∧ (createInvoice flag today fd db).db = db
    ∧ (createInvoice flag today fd db).events = []
    ∧ (createInvoice flag today fd db).exit = HandlerExit.validationError
    ∧ (updateInvoice flag sid fd db).db = db
    ∧ (updateInvoice flag sid fd db).events = []
    ∧ (updateInvoice flag sid fd db).exit = HandlerExit.validationError := by
  have hparse : parseForm fd = none := by
    unfold parseForm
    rw [h]
  refine ⟨hparse, ?_, ?_, ?_, ?_, ?_, ?_⟩ <;>
    simp [createInvoice, updateInvoice, hparse]

/-- Witness for the amended C8 at a form with no customerId field. -/
theorem customer_requires_presence_witness :
    parseForm (mkForm none (some str50) (some strPending)) = none
    ∧ (createInvoice false strToday
        (mkForm none (some str50) (some strPending)) []).db = []
    ∧ (createInvoice false strToday
        (mkForm none (some str50) (some strPending)) []).events = []
    ∧ (createInvoice false strToday
        (mkForm none (some str50) (some strPending)) []).exit
      = HandlerExit.validationError
    ∧ (updateInvoice false strInv1
        (mkForm none (some str50) (some strPending)) []).db = []
    ∧ (updateInvoice false strInv1
        (mkForm none (some str50) (some strPending)) []).events = []
    ∧ (updateInvoice false strInv1
        (mkForm none (some str50) (some strPending)) []).exit
      = HandlerExit.validationError :=
  customer_requires_presence false strToday strInv1
    (mkForm none (some str50) (some strPending)) [] rfl

/-- The field name "date", which the handlers never read from the form. -/
def dateKey : String := "date"

/-- An arbitrary user-supplied date value for the independence test. -/
def strSomeDate : String := "1999-01-01"

/-- C9: the date stored by a successful create is the clock value (`today`
stands for `new Date().toISOString().split("T")[0]`, the current UTC date as
YYYY-MM-DD) and never comes from the form: the whole outcome depends only on
the three fields the handler reads — customerId, amount, status — so any
user-submitted date (or other) field is ignored, and the inserted row carries
`date = today`. -/
theorem create_date_not_from_form (flag : Bool) (today : String)
    (fd fd2 : FormDataM) (db : List Invoice) (p : ParsedForm)
    (h1 : fd customerIdKey = fd2 customerIdKey)
    (h2 : fd amountKey = fd2 amountKey)
    (h3 : fd statusKey = fd2 statusKey)
    (hp : parseForm fd = some p) :
    createInvoice flag today fd db = createInvoice flag today fd2 db
    ∧ (createInvoice false today fd db).db
      = db ++ [{ id := freshId db, customer_id := p.customerId,
                 amount := p.amount * 100, status := p.status,
                 date := today }] := by
  have hpp : parseForm fd = parseForm fd2 := by
    unfold parseForm
    rw [h1, h2, h3]
  constructor
  · unfold createInvoice
    rw [hpp]
  · simp [createInvoice, hp]

/-- Witness for C9: adding a "date" field to the form changes nothing, and
the stored date is the clock value. -/
theorem create_date_not_from_form_witness :
    createInvoice false strToday
        (mkForm (some strC1) (some str50) (some strPending)) []
      = createInvoice false strToday
          (setField (mkForm (some strC1) (some str50) (some strPending))
            dateKey (some strSomeDate)) []
    ∧ (createInvoice false strToday
        (mkForm (some strC1) (some str50) (some strPending)) []).db
      = [] ++ [{ id := freshId [], customer_id := strC1,
                 amount := (50 : ℚ) * 100, status := Status.pending,
                 date := strToday }] :=
  create_date_not_from_form false strToday
    (mkForm (some strC1) (some str50) (some strPending))
    (setField (mkForm (some strC1) (some str50) (some strPending))
      dateKey (some strSomeDate)) []
    { customerId := strC1, amount := 50, status := Status.pending }
    rfl rfl rfl
    (parseForm_mkForm strC1 str50 strPending 50 Status.pending jsNumber_50 rfl)

/-- C10: an absent amount field (`FormData.get` returns null) and the empty
string both coerce to 0 — `Number(null) = Number("") = 0` — so validation
succeeds and the handlers persist 0 cents instead of failing. -/
theorem empty_amount_coerces_zero (today sid cid : String) (st : Status)
    (fd : FormDataM) (db : List Invoice)
    (hc : fd customerIdKey = some cid)
    (hs : parseStatus (fd statusKey) = some st)
    (ha : fd amountKey = none ∨ fd amountKey = some strEmpty) :
    jsNumber none = some 0
    ∧ jsNumber (some strEmpty) = some 0
    ∧ parseForm fd = some { customerId := cid, amount := 0, status := st }
    ∧ (createInvoice false today fd db).db
        = db ++ [{ id := freshId db, customer_id := cid, amount := 0,
                   status := st, date := today }]
    ∧ (updateInvoice false sid fd db).events
        = [Event.sqlUpdate sid cid 0 st, Event.revalidate invoicesPath] := by
  have hparse : parseForm fd
      = some { customerId := cid, amount := 0, status := st } := by
    unfold parseForm
    rcases ha with ha | ha <;> (rw [hc, hs, ha]; rfl)
  refine ⟨rfl, rfl, hparse, ?_, ?_⟩ <;>
    simp [createInvoice, updateInvoice, hparse]

/-- Witness for C10 at a form with no amount field at all. -/
theorem empty_amount_coerces_zero_witness :
    jsNumber none = some 0
    ∧ jsNumber (some strEmpty) = some 0
    ∧ parseForm (mkForm (some strC1) none (some strPending))
        = some { customerId := strC1, amount := 0, status := Status.pending }
    ∧ (createInvoice false strToday
          (mkForm (some strC1) none (some strPending)) []).db
        = [] ++ [{ id := freshId [], customer_id := strC1, amount := 0,
                   status := Status.pending, date := strToday }]
    ∧ (updateInvoice false strInv1
          (mkForm (some strC1) none (some strPending)) []).events
        = [Event.sqlUpdate strInv1 strC1 0 Status.pending,
           Event.revalidate invoicesPath] :=
  empty_amount_coerces_zero strToday strInv1 strC1 Status.pending
    (mkForm (some strC1) none (some strPending)) [] rfl rfl (Or.inl rfl)

end Invoices
